import Mathlib

/-!
Shallow embedding of `src/haveServerDataSelectors.js` from the zulip-mobile
fragment: the per-account gate `getHaveServerData` and the global gate
`getHaveServerDataGlobal`, together with the small accessor interface they
consume (specified in the design document's interface section; the accessor
implementations are outside this source fragment and are modelled from the
spec's description of them).
-/

/-- A known user record in the `users` collection, keyed by a unique
user identifier (`user_id`). -/
structure User where
  user_id : Nat
  full_name : String
deriving DecidableEq, Repr

/-- Authentication credential/session descriptor stored in the `auth`
subtree; its contents (the token) are opaque to the gate. -/
structure Auth where
  token : String
deriving DecidableEq, Repr

/-- The `realm` subtree: session/realm metadata, including the optional
`user_id` field identifying the self user, plus further metadata the gate
never reads (represented by `realmName`). -/
structure RealmState where
  user_id : Option Nat
  realmName : String
deriving DecidableEq, Repr

/-- `PerAccountState` (an AccountBundle): one account's record of
independently-persisted subtrees.  `messages` and `narrows` stand for the
additional server-data subtrees that exist in the store but are opaque to
this core. -/
structure PerAccountState where
  auth : Option Auth
  users : List User
  realm : RealmState
  messages : List String
  narrows : List String
deriving DecidableEq, Repr

/-- Modelled from the spec: `GlobalState` (a MultiAccountStore) holds a
collection of per-account bundles plus an optional active selection; zero
bundles is valid, and the active marker may be unset. -/
structure GlobalState where
  accounts : List PerAccountState
  activeAccount : Option Nat
deriving Repr

/-- Modelled from the spec: accessor for the `auth` field (the import
`tryGetAuth` from `account/accountsSelectors`, not part of this fragment).
Returns the credential when the account is logged in, absence otherwise. -/
def tryGetAuth (state : PerAccountState) : Option Auth :=
  state.auth

/-- Modelled from the spec: accessor for the ordered `users` collection
(the import `getUsers` from `directSelectors`, not part of this fragment). -/
def getUsers (state : PerAccountState) : List User :=
  state.users

/-- Modelled from the spec: lookup from user identifier to user record with
defined-or-absent semantics (the import `getUsersById` from
`users/userSelectors`, not part of this fragment). -/
def getUsersById (state : PerAccountState) (userId : Nat) : Option User :=
  (getUsers state).find? (fun u => u.user_id == userId)

/-- Modelled from the spec: active-account resolution (the import
`tryGetActiveAccountState` from `account/accountsSelectors`, not part of
this fragment): return the bundle currently marked active, or none when no
account is active (no accounts exist, or the active marker is unset). -/
def tryGetActiveAccountState (globalState : GlobalState) : Option PerAccountState :=
  match globalState.activeAccount with
  | none => none
  | some i => globalState.accounts.get? i

/-- Whether we have server data for this account: the per-account gate of
`src/haveServerDataSelectors.js`, translated check by check in source
order, short-circuiting on the first failure. -/
def getHaveServerData (state : PerAccountState) : Bool :=
  -- Any valid server data comes from the account being logged in.
  if (tryGetAuth state).isNone then
    false
  -- Valid server data must have a user: the self user, at a minimum.
  else if (getUsers state).length = 0 then
    false
  else
    -- It must also have the self user's user ID.
    match state.realm.user_id with
    | none => false
    | some ownUserId =>
      -- Consistency check between the two subtrees: the self user
      -- identified in `state.realm` is among those in `state.users`.
      if (getUsersById state ownUserId).isNone then
        false
      else
        true

/-- Whether we have server data for the active account: the global gate of
`src/haveServerDataSelectors.js`. -/
def getHaveServerDataGlobal (globalState : GlobalState) : Bool :=
  match tryGetActiveAccountState globalState with
  | none => false
  | some state => getHaveServerData state

/-- Modelled from the spec: the behaviour of calling the per-account gate
with no bundle at all, per the source comment on the pre-5006 model — with
no active account the call throws an exception, not returns false.  The
absent case is an explicit error outcome, distinct from any boolean
result. -/
def getHaveServerDataWithBundle : Option PerAccountState → Except String Bool
  | none => Except.error "called the per-account gate with no active account"
  | some state => Except.ok (getHaveServerData state)

/-- Modelled from the spec: a getOwnUser-style downstream self-user lookup
on a bundle — look up `realm.user_id` in the users-by-id map. -/
def getOwnUser (state : PerAccountState) : Option User :=
  match state.realm.user_id with
  | none => none
  | some ownUserId => getUsersById state ownUserId

/-- Helper: the per-account gate, characterised as the 4-way conjunction. -/
theorem haveServerData_eq_true_iff (state : PerAccountState) :
    getHaveServerData state = true ↔
      (tryGetAuth state).isSome = true ∧ getUsers state ≠ [] ∧
        ∃ uid, state.realm.user_id = some uid ∧
          ∃ u ∈ getUsers state, u.user_id = uid := by
  unfold getHaveServerData getUsersById
  cases ha : tryGetAuth state with
  | none => simp [ha]
  | some a =>
    cases hu : state.realm.user_id with
    | none => simp [ha, hu]
    | some uid =>
      by_cases hlen : (getUsers state).length = 0
      · simp [ha, hlen, List.length_eq_zero.mp hlen]
      · have hne : getUsers state ≠ [] := by
          simpa [List.length_eq_zero] using hlen
        simp [ha, hlen, hne, Option.isNone_iff_eq_none, List.find?_eq_none]

/-! Concrete bundles used by the witnesses, taken from the spec's concrete
scenarios. -/

/-- The concrete valid bundle of the spec's scenarios: logged in, one user
record, matching self-user id. -/
def validBundle : PerAccountState :=
  { auth := some { token := "t" }
    users := [{ user_id := 7, full_name := "a" }]
    realm := { user_id := some 7, realmName := "r" }
    messages := []
    narrows := [] }

/-- A logged-out bundle whose other subtrees nevertheless look populated. -/
def noAuthBundle : PerAccountState :=
  { auth := none
    users := [{ user_id := 7, full_name := "a" }]
    realm := { user_id := some 7, realmName := "r" }
    messages := ["m"]
    narrows := [] }

/-- The spec's torn-state scenario: logged in, one user record with id 7,
but the realm subtree names self-user 9. -/
def tornBundle : PerAccountState :=
  { auth := some { token := "t" }
    users := [{ user_id := 7, full_name := "" }]
    realm := { user_id := some 9, realmName := "" }
    messages := []
    narrows := [] }

/-- A logged-in bundle whose users collection is empty. -/
def emptyUsersBundle : PerAccountState :=
  { auth := some { token := "t" }
    users := []
    realm := { user_id := some 3, realmName := "r" }
    messages := ["m"]
    narrows := ["n"] }

/-- `validBundle` with a different token, realm metadata, and other
subtrees, but the same auth presence, users, and realm.user_id. -/
def variantBundle : PerAccountState :=
  { auth := some { token := "u" }
    users := [{ user_id := 7, full_name := "a" }]
    realm := { user_id := some 7, realmName := "other" }
    messages := ["m1", "m2"]
    narrows := ["n"] }

/-- C1: for every PerAccountState, the per-account gate getHaveServerData
returns true if and only if all four conditions hold: the auth credential
is present, the users collection is non-empty, realm.user_id is defined,
and that identifier matches the identifier of some record in users. -/
theorem getHaveServerData_iff_valid (state : PerAccountState) :
    getHaveServerData state = true ↔
      (tryGetAuth state).isSome = true ∧ getUsers state ≠ [] ∧
        ∃ uid, state.realm.user_id = some uid ∧
          ∃ u ∈ getUsers state, u.user_id = uid :=
  haveServerData_eq_true_iff state

/-- C2: for every bundle in which the auth credential is absent,
getHaveServerData returns false, regardless of the users and realm
subtrees. -/
theorem getHaveServerData_false_of_no_auth (state : PerAccountState)
    (h : tryGetAuth state = none) :
    getHaveServerData state = false := by
  unfold getHaveServerData
  simp [h]

/-- Witness for C2: the logged-out bundle with populated users and a
matching realm.user_id still gets false. -/
theorem getHaveServerData_false_of_no_auth_witness :
    getHaveServerData noAuthBundle = false :=
  getHaveServerData_false_of_no_auth noAuthBundle rfl

/-- C3: for every bundle with auth present, users non-empty, and
realm.user_id defined but not equal to the identifier of any record in
users, getHaveServerData returns false. -/
theorem getHaveServerData_false_of_mismatch (state : PerAccountState)
    (uid : Nat)
    (_ha : (tryGetAuth state).isSome = true)
    (_hne : getUsers state ≠ [])
    (hu : state.realm.user_id = some uid)
    (hmiss : ∀ u ∈ getUsers state, u.user_id ≠ uid) :
    getHaveServerData state = false := by
  cases hf : getHaveServerData state with
  | false => rfl
  | true =>
    obtain ⟨-, -, uid2, hu2, u, hmem, hid⟩ :=
      (haveServerData_eq_true_iff state).mp hf
    rw [hu, Option.some.injEq] at hu2
    subst hu2
    exact absurd hid (hmiss u hmem)

/-- Witness for C3: the spec's torn-state bundle (auth token t, one user
with id 7, realm.user_id 9) gets false. -/
theorem getHaveServerData_false_of_mismatch_witness :
    getHaveServerData tornBundle = false :=
  getHaveServerData_false_of_mismatch tornBundle 9 rfl
    (by decide) rfl (by decide)

/-- C4: for every bundle with auth present and an empty users collection,
getHaveServerData returns false, independently of the realm subtree. -/
theorem getHaveServerData_false_of_empty_users (state : PerAccountState)
    (_ha : (tryGetAuth state).isSome = true)
    (h : getUsers state = []) :
    getHaveServerData state = false := by
  unfold getHaveServerData
  simp [h]

/-- Witness for C4: the logged-in bundle with empty users (and a defined
realm.user_id) gets false. -/
theorem getHaveServerData_false_of_empty_users_witness :
    getHaveServerData emptyUsersBundle = false :=
  getHaveServerData_false_of_empty_users emptyUsersBundle rfl rfl

/-- C5: for every GlobalState with zero accounts or the active marker
unset, active-account resolution yields no bundle and the global gate
returns false without a per-account result to consult. -/
theorem getHaveServerDataGlobal_false_of_no_active (globalState : GlobalState)
    (h : globalState.accounts = [] ∨ globalState.activeAccount = none) :
    tryGetActiveAccountState globalState = none ∧
      getHaveServerDataGlobal globalState = false := by
  have hres : tryGetActiveAccountState globalState = none := by
    unfold tryGetActiveAccountState
    rcases h with h | h
    · cases hA : globalState.activeAccount with
      | none => rfl
      | some i => simp [h]
    · simp [h]
  refine ⟨hres, ?_⟩
  unfold getHaveServerDataGlobal
  rw [hres]

/-- Witness for C5: a store holding one (even valid) bundle but with the
active marker unset resolves to none and gets false. -/
theorem getHaveServerDataGlobal_false_of_no_active_witness :
    tryGetActiveAccountState { accounts := [validBundle], activeAccount := none } = none ∧
      getHaveServerDataGlobal { accounts := [validBundle], activeAccount := none } = false :=
  getHaveServerDataGlobal_false_of_no_active
    { accounts := [validBundle], activeAccount := none } (Or.inr rfl)

/-- C6: for every GlobalState whose active-account resolution yields a
bundle, getHaveServerDataGlobal returns exactly getHaveServerData of that
bundle. -/
theorem getHaveServerDataGlobal_delegates (globalState : GlobalState)
    (state : PerAccountState)
    (h : tryGetActiveAccountState globalState = some state) :
    getHaveServerDataGlobal globalState = getHaveServerData state := by
  unfold getHaveServerDataGlobal
  rw [h]

/-- Witness for C6: a store whose active marker selects the valid bundle
delegates exactly to the per-account gate on it. -/
theorem getHaveServerDataGlobal_delegates_witness :
    getHaveServerDataGlobal { accounts := [validBundle], activeAccount := some 0 } =
      getHaveServerData validBundle :=
  getHaveServerDataGlobal_delegates
    { accounts := [validBundle], activeAccount := some 0 } validBundle rfl

/-- C7: the per-account gate is a total boolean function: each of the four
check failures (missing auth, empty users, undefined realm.user_id,
mismatched realm.user_id) is returned as the ordinary value false, never
as an exception. -/
theorem getHaveServerData_total_boolean (state : PerAccountState) :
    (getHaveServerData state = false ∨ getHaveServerData state = true) ∧
    ((tryGetAuth state).isNone = true → getHaveServerData state = false) ∧
    (getUsers state = [] → getHaveServerData state = false) ∧
    (state.realm.user_id = none → getHaveServerData state = false) ∧
    (∀ uid, state.realm.user_id = some uid →
      (getUsersById state uid).isNone = true →
      getHaveServerData state = false) := by
  refine ⟨(Bool.eq_false_or_eq_true _).symm, ?_, ?_, ?_, ?_⟩
  · intro h
    unfold getHaveServerData
    simp [h]
  · intro h
    unfold getHaveServerData
    simp [h]
  · intro h
    unfold getHaveServerData
    simp [h]
  · intro uid h1 h2
    unfold getHaveServerData
    simp [h1, h2]

/-- Witness for C7: on the logged-out bundle, the missing-auth failure is
the ordinary boolean value false. -/
theorem getHaveServerData_total_boolean_witness :
    getHaveServerData noAuthBundle = false :=
  (getHaveServerData_total_boolean noAuthBundle).2.1 rfl

/-- C8: calling the gate with no bundle at all is an explicit error
outcome, distinct from the boolean result: it is never Except.ok false
(nor Except.ok true). -/
theorem getHaveServerDataWithBundle_none_is_error :
    getHaveServerDataWithBundle none =
        Except.error "called the per-account gate with no active account" ∧
      getHaveServerDataWithBundle none ≠ Except.ok false ∧
      getHaveServerDataWithBundle none ≠ Except.ok true := by
  refine ⟨rfl, ?_, ?_⟩ <;> simp [getHaveServerDataWithBundle]

/-- C9: noninterference — two bundles agreeing on the presence of the auth
credential, on the users collection, and on realm.user_id get the same
boolean from getHaveServerData; the token contents and the other subtrees
never matter. -/
theorem getHaveServerData_noninterference (s1 s2 : PerAccountState)
    (hauth : s1.auth.isSome = s2.auth.isSome)
    (husers : s1.users = s2.users)
    (hrealm : s1.realm.user_id = s2.realm.user_id) :
    getHaveServerData s1 = getHaveServerData s2 := by
  have hnone : s1.auth.isNone = s2.auth.isNone := by
    cases h1 : s1.auth <;> cases h2 : s2.auth <;> simp_all
  unfold getHaveServerData getUsersById tryGetAuth getUsers
  rw [hnone, husers, hrealm]

/-- Witness for C9: changing only the token, the realm metadata, and the
message and narrow subtrees leaves the result unchanged. -/
theorem getHaveServerData_noninterference_witness :
    getHaveServerData validBundle = getHaveServerData variantBundle :=
  getHaveServerData_noninterference validBundle variantBundle rfl rfl rfl

/-- C10: on every bundle where getHaveServerData returns true, looking up
realm.user_id in the users-by-id map yields a defined user record, so a
getOwnUser-style lookup cannot fail. -/
theorem getHaveServerData_implies_ownUser (state : PerAccountState)
    (h : getHaveServerData state = true) :
    (getOwnUser state).isSome = true ∧
      ∃ uid, state.realm.user_id = some uid ∧
        ∃ u, getUsersById state uid = some u := by
  obtain ⟨-, -, uid, hu, u, hmem, hid⟩ :=
    (haveServerData_eq_true_iff state).mp h
  have hsome : (getUsersById state uid).isSome = true := by
    unfold getUsersById
    rw [List.find?_isSome]
    exact ⟨u, hmem, by simpa using hid⟩
  refine ⟨?_, uid, hu, Option.isSome_iff_exists.mp hsome⟩
  unfold getOwnUser
  rw [hu]
  exact hsome

/-- Witness for C10: on the valid bundle the gate returns true and the
self-user lookup is defined. -/
theorem getHaveServerData_implies_ownUser_witness :
    (getOwnUser validBundle).isSome = true ∧
      ∃ uid, validBundle.realm.user_id = some uid ∧
        ∃ u, getUsersById validBundle uid = some u :=
  getHaveServerData_implies_ownUser validBundle rfl
